import Mathlib

/-!
Shallow embedding of the iONA Energy token/session client
(`custom_components/ionaenergy/api.py`).

The client's HTTP exchanges are modelled by passing in the responses the
server would return (a script of `HttpResponse`s); the clocks
(`time.time()` and `datetime.utcnow()`) are modelled as explicit
parameters: seconds since the epoch as `Int` for token arithmetic, and
microseconds since the epoch as `Nat` for the power time window.
JSON payloads are a small inductive `Json`; Python `dict.get` maps to
`Json.getM`/`getD`, and Python truthiness of JSON values to
`Json.truthy`.  The persisted config-entry record
(`config_entry.data`) is modelled as a finite map `String → Option Json`.
-/

inductive Json where
  | null : Json
  | bool (b : Bool) : Json
  | num (n : Int) : Json
  | str (s : String) : Json
  | arr (elems : List Json) : Json
  | obj (fields : List (String × Json)) : Json

/-- First-match lookup in a JSON object's field list (Python `dict` lookup). -/
def lookupField : List (String × Json) → String → Option Json
  | [], _ => none
  | (k', v) :: rest, k => if k' = k then some v else lookupField rest k

/-- Python `d.get(k)`: `some v` when the key is present, `none` otherwise
(and `none` when the value is not an object at all). -/
def Json.getM : Json → String → Option Json
  | .obj fields, k => lookupField fields k
  | _, _ => none

/-- Python truthiness of a JSON value (`None`, `""`, `0`, `[]`, `{}` and
`False` are falsy). -/
def Json.truthy : Json → Bool
  | .null => false
  | .bool b => b
  | .num n => decide (n ≠ 0)
  | .str s => !s.isEmpty
  | .arr elems => !elems.isEmpty
  | .obj fields => !fields.isEmpty

/-- Python truthiness test `not x` for an optional string attribute
(`None` and `""` are falsy). -/
def optStrFalsy : Option String → Bool
  | none => true
  | some s => s.isEmpty

/-- Python truthiness test `not x` for an optional integer attribute
(`None` and `0` are falsy). -/
def optIntFalsy : Option Int → Bool
  | none => true
  | some n => decide (n = 0)

/-- The errors the client raises.  `valueError` models Python
`ValueError(message)`; `clientResponseError` models
`aiohttp.ClientResponseError` with its `status` and `message`. -/
inductive ApiError where
  | valueError (message : String) : ApiError
  | clientResponseError (status : Nat) (message : String) : ApiError

/-- An HTTP response as the client observes it: `status`, the parsed JSON
body (`response.json()`), and the raw text (`response.text()`). -/
structure HttpResponse where
  status : Nat
  body : Json
  text : String

/-- Mutable state of `IONAEnergyAPI`: the three token fields (with
Python `None` as `none`), the two timestamps, and the referenced config
entry's persisted data (`none` until `set_config_entry` is called). -/
structure ClientState where
  access_token : Option String
  refresh_token : Option String
  expires_in : Option Int
  token_created_at : Int
  last_token_refresh : Int
  config_entry : Option (String → Option Json)

/-- `IONAEnergyAPI._is_token_expired`: true when the access token or
`expires_in` is falsy, otherwise true when fewer than 300 seconds remain
until `token_created_at + expires_in`. -/
def isTokenExpired (s : ClientState) (now : Int) : Bool :=
  if optStrFalsy s.access_token || optIntFalsy s.expires_in then true
  else decide ((s.token_created_at + s.expires_in.getD 0) - now < 300)

/-- The token value the client stores in memory from a refresh payload
field (`new_tokens.get("access_token")` etc.); token payload fields are
strings per the API contract, anything else is treated as absent. -/
def jsonFieldStr : Option Json → Option String
  | some (.str s) => some s
  | _ => none

/-- The `expires_in` value the client stores in memory from a refresh
payload field; it is an integer per the API contract. -/
def jsonFieldInt : Option Json → Option Int
  | some (.num n) => some n
  | _ => none

/-- The merged record `{**config_entry.data, "access_token": ...,
"refresh_token": ..., "expires_in": ...}` built by
`_update_tokens_in_config_entry`: the three token keys are overwritten
with the refresh payload's values (Python `dict.get` gives `None`,
i.e. `Json.null`, for a missing field), every other key keeps the value
it had. -/
def mergeTokens (data : String → Option Json) (newTokens : Json) :
    String → Option Json :=
  fun k =>
    if k = "access_token" then some ((newTokens.getM "access_token").getD .null)
    else if k = "refresh_token" then some ((newTokens.getM "refresh_token").getD .null)
    else if k = "expires_in" then some ((newTokens.getM "expires_in").getD .null)
    else data k

/-- Result of `_update_tokens_in_config_entry`: the new client state and
whether `hass.config_entries.async_update_entry` was invoked. -/
structure UpdateOutcome where
  state : ClientState
  persistCalled : Bool

/-- `IONAEnergyAPI._update_tokens_in_config_entry`: a no-op (with a
warning) when no config entry is set; otherwise updates the in-memory
token fields and both timestamps, and persists the merged record. -/
def updateTokensInConfigEntry (s : ClientState) (now : Int) (newTokens : Json) :
    UpdateOutcome :=
  match s.config_entry with
  | none => ⟨s, false⟩
  | some data =>
      ⟨{ s with
          access_token := jsonFieldStr (newTokens.getM "access_token")
          refresh_token := jsonFieldStr (newTokens.getM "refresh_token")
          expires_in := jsonFieldInt (newTokens.getM "expires_in")
          token_created_at := now
          last_token_refresh := now
          config_entry := some (mergeTokens data newTokens) }, true⟩

/-- Result of `refresh_access_token`: the returned payload or the raised
error, the client state afterwards, whether a refresh POST was issued,
whether the config entry was persisted, and the response text captured
(read and logged) in the failure path. -/
structure RefreshOutcome where
  result : Except ApiError Json
  state : ClientState
  posted : Bool
  persistCalled : Bool
  capturedBody : Option String

/-- `IONAEnergyAPI.refresh_access_token`: raises
`ValueError("No refresh token available")` before any network call when
the refresh token is falsy; on HTTP 200 updates tokens via
`_update_tokens_in_config_entry` and returns the payload; on any other
status reads the response text (for the error log) and raises
`ClientResponseError` naming the status. -/
def refresh_access_token (s : ClientState) (now : Int) (resp : HttpResponse) :
    RefreshOutcome :=
  if optStrFalsy s.refresh_token then
    ⟨.error (.valueError "No refresh token available"), s, false, false, none⟩
  else if resp.status = 200 then
    let u := updateTokensInConfigEntry s now resp.body
    ⟨.ok resp.body, u.state, true, u.persistCalled, none⟩
  else
    ⟨.error (.clientResponseError resp.status
        ("Token refresh failed: " ++ toString resp.status)),
      s, true, false, some resp.text⟩

/-- Result of `_ensure_valid_token`: success or the propagated error, the
client state afterwards, how many times `refresh_access_token` was
invoked and how many refresh POSTs actually went out. -/
structure EnsureOutcome where
  result : Except ApiError Unit
  state : ClientState
  refreshCalls : Nat
  refreshPosts : Nat

/-- `IONAEnergyAPI._ensure_valid_token`: raises
`ValueError("No access token available")` when the access token is
falsy; refreshes (propagating any refresh failure unchanged) exactly
when `_is_token_expired()` holds; otherwise does nothing. -/
def ensureValidToken (s : ClientState) (now : Int) (refreshResp : HttpResponse) :
    EnsureOutcome :=
  if optStrFalsy s.access_token then
    ⟨.error (.valueError "No access token available"), s, 0, 0⟩
  else if isTokenExpired s now then
    let r := refresh_access_token s now refreshResp
    ⟨r.result.map (fun _ => ()), r.state, 1, if r.posted then 1 else 0⟩
  else
    ⟨.ok (), s, 0, 0⟩

/-- The JSON body `{"method": "login", "username": ..., "password": ...}`
posted by `authenticate`. -/
def authRequestBody (username password : String) : Json :=
  .obj [("method", .str "login"), ("username", .str username),
        ("password", .str password)]

/-- `IONAEnergyAPI.authenticate`: on HTTP 200 parses the token payload,
sets `token_created_at` and `last_token_refresh` to now and returns the
payload (without storing the tokens); otherwise raises
`ClientResponseError` naming the status. -/
def authenticate (s : ClientState) (now : Int) (username password : String)
    (resp : HttpResponse) : Except ApiError Json × ClientState :=
  let _body := authRequestBody username password
  if resp.status = 200 then
    (.ok resp.body, { s with token_created_at := now, last_token_refresh := now })
  else
    (.error (.clientResponseError resp.status
        ("Authentication failed: " ++ toString resp.status)), s)

/-! ### The power-endpoint time window (`datetime.utcnow` / `strftime` /
`urllib.parse.quote`) -/

/-- Left-pad the decimal digits of `n` with zeros to `width` characters
(the zero-padded fields of `strftime`). -/
def padNum (width : Nat) (n : Nat) : List Char :=
  let ds := Nat.toDigits 10 n
  List.replicate (width - ds.length) '0' ++ ds

/-- Civil date (year, month, day) of a day count since 1970-01-01
(proleptic Gregorian), modelling the date part of
`datetime.utcfromtimestamp`-style conversion for non-negative days. -/
def civilFromDays (z : Nat) : Nat × Nat × Nat :=
  let z' := z + 719468
  let era := z' / 146097
  let doe := z' % 146097
  let yoe := (doe - doe / 1460 + doe / 36524 - doe / 146096) / 365
  let y := yoe + era * 400
  let doy := doe - (365 * yoe + yoe / 4 - yoe / 100)
  let mp := (5 * doy + 2) / 153
  let d := doy - (153 * mp + 2) / 5 + 1
  let m := if mp < 10 then mp + 3 else mp - 9
  (if m ≤ 2 then y + 1 else y, m, d)

/-- The `%Y-%m-%dT%H:%M:%S` part of
`strftime("%Y-%m-%dT%H:%M:%S.%f")` for a UTC instant given in
microseconds since the epoch. -/
def dateTimePart (t : Nat) : List Char :=
  let sec := t / 1000000
  let ymd := civilFromDays (sec / 86400)
  padNum 4 ymd.1 ++ ('-' :: padNum 2 ymd.2.1) ++ ('-' :: padNum 2 ymd.2.2)
    ++ ('T' :: padNum 2 (sec / 3600 % 24)) ++ (':' :: padNum 2 (sec / 60 % 60))
    ++ (':' :: padNum 2 (sec % 60))

/-- The six zero-padded digits of `%f` (microseconds). -/
def microsDigits (m : Nat) : List Char :=
  [Nat.digitChar (m / 100000 % 10), Nat.digitChar (m / 10000 % 10),
   Nat.digitChar (m / 1000 % 10), Nat.digitChar (m / 100 % 10),
   Nat.digitChar (m / 10 % 10), Nat.digitChar (m % 10)]

/-- Full `strftime("%Y-%m-%dT%H:%M:%S.%f")` output as characters. -/
def strftimeChars (t : Nat) : List Char :=
  (dateTimePart t ++ ['.']) ++ microsDigits (t % 1000000)

/-- The timestamp string the client builds:
`strftime("%Y-%m-%dT%H:%M:%S.%f")[:-3] + "Z"` (the slice drops the three
sub-millisecond digits). -/
def pyFormatChars (t : Nat) : List Char :=
  let s := strftimeChars t
  s.take (s.length - 3) ++ ['Z']

/-- Three zero-padded millisecond digits — the shape the spec asks for
(millisecond-precision fraction). -/
def millisDigits (ms : Nat) : List Char :=
  [Nat.digitChar (ms / 100 % 10), Nat.digitChar (ms / 10 % 10),
   Nat.digitChar (ms % 10)]

/-- Uppercase hex digit used by percent-encoding. -/
def percentHexDigit (n : Nat) : Char :=
  if n < 10 then Char.ofNat (48 + n) else Char.ofNat (55 + n)

/-- Characters `urllib.parse.quote` leaves unencoded with its default
`safe="/"`: ASCII letters, digits, `_.-~` and `/`. -/
def isQuoteSafe (c : Char) : Bool :=
  ('A' ≤ c && c ≤ 'Z') || ('a' ≤ c && c ≤ 'z') || ('0' ≤ c && c ≤ '9')
    || c = '_' || c = '.' || c = '-' || c = '~' || c = '/'

/-- `urllib.parse.quote` for one ASCII character: kept when safe,
percent-encoded otherwise. -/
def quoteChar (c : Char) : List Char :=
  if isQuoteSafe c then [c]
  else ['%', percentHexDigit (c.toNat / 16 % 16), percentHexDigit (c.toNat % 16)]

/-- `urllib.parse.quote` over an ASCII string (the timestamps the client
encodes are pure ASCII). -/
def pyQuote (s : List Char) : List Char :=
  s.flatMap quoteChar

/-- `now - timedelta(minutes=5)` in microseconds. -/
def powerStartMicros (t : Nat) : Nat := t - 300 * 1000000

/-- The URL `get_current_power` builds:
`https://api.n2g-iona.net/v2/power/{quote(start_str)}/{quote(end_str)}/`
for the window `[t - 5 min, t]`. -/
def powerUrl (t : Nat) : String :=
  String.mk (("https://api.n2g-iona.net/v2/power/").data
    ++ pyQuote (pyFormatChars (powerStartMicros t))
    ++ ('/' :: pyQuote (pyFormatChars t)) ++ ['/'])

/-! ### Read operations -/

/-- A response used when the supplied response script is exhausted; its
status 0 is neither 200 nor 401, so it only ever produces an error. -/
def defaultResponse : HttpResponse := ⟨0, .null, ""⟩

/-- Outcome of `get_initialisation_data` / `get_meter_info`: the
returned payload or raised error, the final client state, the refresh
activity, and the bearer token attached to each GET actually issued. -/
structure ReadOutcome where
  result : Except ApiError Json
  state : ClientState
  refreshCalls : Nat
  refreshPosts : Nat
  tokensUsed : List (Option String)

/-- `IONAEnergyAPI.get_initialisation_data`: ensure a valid token, GET;
on 200 return the JSON body; on a first 401 run `_ensure_valid_token`
again and retry exactly once with the current token; any other outcome
raises `ClientResponseError` naming the status. -/
def get_initialisation_data (s : ClientState) (now : Int)
    (refreshResps : List HttpResponse) (readResps : List HttpResponse) :
    ReadOutcome :=
  let e1 := ensureValidToken s now (refreshResps.getD 0 defaultResponse)
  match e1.result with
  | .error err => ⟨.error err, e1.state, e1.refreshCalls, e1.refreshPosts, []⟩
  | .ok _ =>
    let s1 := e1.state
    let resp := readResps.getD 0 defaultResponse
    if resp.status = 200 then
      ⟨.ok resp.body, s1, e1.refreshCalls, e1.refreshPosts, [s1.access_token]⟩
    else if resp.status = 401 then
      let e2 := ensureValidToken s1 now (refreshResps.getD e1.refreshCalls defaultResponse)
      match e2.result with
      | .error err =>
          ⟨.error err, e2.state, e1.refreshCalls + e2.refreshCalls,
            e1.refreshPosts + e2.refreshPosts, [s1.access_token]⟩
      | .ok _ =>
        let s2 := e2.state
        let retry := readResps.getD 1 defaultResponse
        if retry.status = 200 then
          ⟨.ok retry.body, s2, e1.refreshCalls + e2.refreshCalls,
            e1.refreshPosts + e2.refreshPosts, [s1.access_token, s2.access_token]⟩
        else
          ⟨.error (.clientResponseError retry.status
              ("Failed to get initialisation data after token refresh: "
                ++ toString retry.status)),
            s2, e1.refreshCalls + e2.refreshCalls,
            e1.refreshPosts + e2.refreshPosts, [s1.access_token, s2.access_token]⟩
    else
      ⟨.error (.clientResponseError resp.status
          ("Failed to get initialisation data: " ++ toString resp.status)),
        s1, e1.refreshCalls, e1.refreshPosts, [s1.access_token]⟩

/-- `IONAEnergyAPI.get_meter_info`: identical control flow to
`get_initialisation_data` with its own URL and error messages. -/
def get_meter_info (s : ClientState) (now : Int)
    (refreshResps : List HttpResponse) (readResps : List HttpResponse) :
    ReadOutcome :=
  let e1 := ensureValidToken s now (refreshResps.getD 0 defaultResponse)
  match e1.result with
  | .error err => ⟨.error err, e1.state, e1.refreshCalls, e1.refreshPosts, []⟩
  | .ok _ =>
    let s1 := e1.state
    let resp := readResps.getD 0 defaultResponse
    if resp.status = 200 then
      ⟨.ok resp.body, s1, e1.refreshCalls, e1.refreshPosts, [s1.access_token]⟩
    else if resp.status = 401 then
      let e2 := ensureValidToken s1 now (refreshResps.getD e1.refreshCalls defaultResponse)
      match e2.result with
      | .error err =>
          ⟨.error err, e2.state, e1.refreshCalls + e2.refreshCalls,
            e1.refreshPosts + e2.refreshPosts, [s1.access_token]⟩
      | .ok _ =>
        let s2 := e2.state
        let retry := readResps.getD 1 defaultResponse
        if retry.status = 200 then
          ⟨.ok retry.body, s2, e1.refreshCalls + e2.refreshCalls,
            e1.refreshPosts + e2.refreshPosts, [s1.access_token, s2.access_token]⟩
        else
          ⟨.error (.clientResponseError retry.status
              ("Failed to get meter info after token refresh: "
                ++ toString retry.status)),
            s2, e1.refreshCalls + e2.refreshCalls,
            e1.refreshPosts + e2.refreshPosts, [s1.access_token, s2.access_token]⟩
    else
      ⟨.error (.clientResponseError resp.status
          ("Failed to get meter info: " ++ toString resp.status)),
        s1, e1.refreshCalls, e1.refreshPosts, [s1.access_token]⟩

/-- `data.get("status") == "ok"` — Python equality against the string
literal is true only for an equal string value. -/
def isStatusOk (data : Json) : Bool :=
  match data.getM "status" with
  | some (.str s) => s == "ok"
  | _ => false

/-- The 200-payload handling of `get_current_power`: the envelope check
`data.get("status") == "ok" and data.get("data", {}).get("results")`
(Python truthiness on the results value), then the inner
`if results: ... else: raise ValueError("No power data available")`
branch, reshaping the last result element.  A truthy non-list results
value would make Python's `results[-1]` raise; that crash path is the
final `valueError` below and is unreachable for list payloads. -/
def parsePowerData (data : Json) : Except ApiError Json :=
  let resultsVal := (((data.getM "data").getD (.obj [])).getM "results").getD .null
  if isStatusOk data && resultsVal.truthy then
    match resultsVal with
    | .arr results =>
      if !results.isEmpty then
        let latest := results.getLast?.getD .null
        .ok (.obj [("power", (latest.getM "power").getD (.num 0)),
                   ("timestamp", (latest.getM "timestamp").getD (.str "")),
                   ("unit", .str "W")])
      else
        .error (.valueError "No power data available")
    | _ => .error (.valueError "TypeError: results value is not a list")
  else
    .error (.valueError "Invalid response format")

/-- Outcome of `get_current_power`: like `ReadOutcome`, plus the URL the
operation targets. -/
structure PowerOutcome where
  result : Except ApiError Json
  state : ClientState
  refreshCalls : Nat
  refreshPosts : Nat
  tokensUsed : List (Option String)
  url : String

/-- `IONAEnergyAPI.get_current_power`: ensure a valid token, build the
5-minute window URL, GET; on 200 validate and reshape the payload via
`parsePowerData`; on a first 401 run `_ensure_valid_token` again and
retry exactly once; any other outcome raises `ClientResponseError`
naming the status.  `now` is the `time.time()` clock (seconds), `nowUs`
the `datetime.utcnow()` clock (microseconds). -/
def get_current_power (s : ClientState) (now : Int) (nowUs : Nat)
    (refreshResps : List HttpResponse) (readResps : List HttpResponse) :
    PowerOutcome :=
  let url := powerUrl nowUs
  let e1 := ensureValidToken s now (refreshResps.getD 0 defaultResponse)
  match e1.result with
  | .error err => ⟨.error err, e1.state, e1.refreshCalls, e1.refreshPosts, [], url⟩
  | .ok _ =>
    let s1 := e1.state
    let resp := readResps.getD 0 defaultResponse
    if resp.status = 200 then
      ⟨parsePowerData resp.body, s1, e1.refreshCalls, e1.refreshPosts,
        [s1.access_token], url⟩
    else if resp.status = 401 then
      let e2 := ensureValidToken s1 now (refreshResps.getD e1.refreshCalls defaultResponse)
      match e2.result with
      | .error err =>
          ⟨.error err, e2.state, e1.refreshCalls + e2.refreshCalls,
            e1.refreshPosts + e2.refreshPosts, [s1.access_token], url⟩
      | .ok _ =>
        let s2 := e2.state
        let retry := readResps.getD 1 defaultResponse
        if retry.status = 200 then
          ⟨parsePowerData retry.body, s2, e1.refreshCalls + e2.refreshCalls,
            e1.refreshPosts + e2.refreshPosts, [s1.access_token, s2.access_token], url⟩
        else
          ⟨.error (.clientResponseError retry.status
              ("Failed to get power data after token refresh: "
                ++ toString retry.status)),
            s2, e1.refreshCalls + e2.refreshCalls,
            e1.refreshPosts + e2.refreshPosts, [s1.access_token, s2.access_token], url⟩
    else
      ⟨.error (.clientResponseError resp.status
          ("Failed to get power data: " ++ toString resp.status)),
        s1, e1.refreshCalls, e1.refreshPosts, [s1.access_token], url⟩

/-- Does a result carry the (dead) `"No power data available"` error? -/
def resultIsNoPowerData : Except ApiError Json → Bool
  | .error (.valueError m) => m == "No power data available"
  | _ => false

/-! ### Concrete fixtures used by witnesses and counterexamples -/

/-- A client whose token is set and far from expiry at `now = 0`. -/
def cxState : ClientState := ⟨some "tok", some "ref", some 10000, 0, 0, none⟩

/-- A persisted config-entry record: username plus the three (old) token
fields. -/
def cxEntry : String → Option Json := fun k =>
  if k = "username" then some (.str "alice")
  else if k = "access_token" then some (.str "oldA")
  else if k = "refresh_token" then some (.str "oldR")
  else if k = "expires_in" then some (.num 600)
  else none

/-- `cxState` after `set_config_entry`. -/
def cxStateWithEntry : ClientState := { cxState with config_entry := some cxEntry }

/-- A token payload as returned by the auth endpoint. -/
def cxTokens : Json :=
  .obj [("access_token", .str "newA"), ("refresh_token", .str "newR"),
        ("expires_in", .num 600)]

/-- A 200 response to the refresh POST. -/
def cxRefreshOk : HttpResponse := ⟨200, cxTokens, ""⟩

/-- A failed (503) response to the refresh POST. -/
def cxRefreshFail : HttpResponse := ⟨503, .str "busy", "service busy"⟩

/-- An arbitrary JSON payload for a read endpoint. -/
def cxPayload : Json := .obj [("info", .str "hello")]

/-- A 401 response. -/
def cx401 : HttpResponse := ⟨401, .null, "unauthorized"⟩

/-- A 200 response carrying `cxPayload`. -/
def cx200 : HttpResponse := ⟨200, cxPayload, "payload"⟩

/-- The power payload from the spec's example: two readings, `t2` last. -/
def cxPowerPayload : Json :=
  .obj [("status", .str "ok"),
        ("data", .obj [("results", .arr
          [.obj [("power", .num 100), ("timestamp", .str "t1")],
           .obj [("power", .num 150), ("timestamp", .str "t2")]])])]

/-- A 200 power response carrying `cxPowerPayload`. -/
def cxPower200 : HttpResponse := ⟨200, cxPowerPayload, "power"⟩

/-! ### Theorems -/

theorem take_append_six (A : List Char) (a b c d e f : Char) :
    (A ++ [a, b, c, d, e, f]).take (A.length + 3) = A ++ [a, b, c] := by
  induction A with
  | nil => rfl
  | cons x xs ih =>
      have h : xs.length + 1 + 3 = xs.length + 3 + 1 := by omega
      simp only [List.cons_append, List.length_cons, h, List.take_succ_cons, ih]

theorem strftime_slice_millis (t : Nat) :
    pyFormatChars t =
      (dateTimePart t ++ ['.']) ++ (millisDigits (t / 1000 % 1000) ++ ['Z']) := by
  unfold pyFormatChars strftimeChars
  dsimp only
  have hlen : ((dateTimePart t ++ ['.']) ++ microsDigits (t % 1000000)).length - 3
      = (dateTimePart t ++ ['.']).length + 3 := by
    simp [microsDigits, List.length_append]
  rw [hlen]
  unfold microsDigits
  rw [take_append_six]
  have h1 : t % 1000000 / 100000 % 10 = t / 1000 % 1000 / 100 % 10 := by omega
  have h2 : t % 1000000 / 10000 % 10 = t / 1000 % 1000 / 10 % 10 := by omega
  have h3 : t % 1000000 / 1000 % 10 = t / 1000 % 1000 % 10 := by omega
  rw [h1, h2, h3]
  simp [millisDigits, List.append_assoc]

/-- C3 (amended): `_is_token_expired` is true exactly when the access
token is Python-falsy (unset or empty), `expires_in` is Python-falsy
(unset or zero), or strictly fewer than 300 seconds remain before
`token_created_at + expires_in` — i.e. when
`now > token_created_at + expires_in - 300`; at
`now = token_created_at + expires_in - 300` exactly it is still false,
while at 301 and 299 seconds before expiry it is false resp. true. -/
theorem isTokenExpired_characterization (s : ClientState) (now : Int) :
    isTokenExpired s now = true ↔
      (optStrFalsy s.access_token = true ∨ optIntFalsy s.expires_in = true ∨
        ∃ e, s.expires_in = some e ∧ s.token_created_at + e - now < 300) := by
  unfold isTokenExpired
  cases hA : optStrFalsy s.access_token with
  | true => simp [hA]
  | false =>
    cases hE : optIntFalsy s.expires_in with
    | true => simp [hE]
    | false =>
      cases hEx : s.expires_in with
      | none => rw [hEx] at hE; simp [optIntFalsy] at hE
      | some e => simp [hA, hE, hEx]

/-- C3 counterexample: with `access_token` set, `expires_in = 1000` and
`token_created_at = 0`, at `now = 700 = token_created_at + 1000 - 300`
the claim's condition `now ≥ token_created_at + expires_in - 300` holds,
yet `_is_token_expired` returns false (the code's test is strict). -/
theorem isTokenExpired_boundary_cx :
    isTokenExpired ⟨some "tok", some "ref", some 1000, 0, 0, none⟩ 700 = false ∧
    (0 : Int) + 1000 - 300 ≤ 700 := by
  exact ⟨by decide, by decide⟩

/-- C7: for a fixed instant `t` (microseconds since the epoch), the
computed window is `[t - 300 s, t]`; both bounds are formatted by
slicing `strftime("%Y-%m-%dT%H:%M:%S.%f")` to millisecond precision with
a literal trailing `Z`; both are percent-encoded into the
`/v2/power/{start}/{end}/` path, and `get_current_power` targets exactly
that URL. -/
theorem power_time_window_format (t : Nat) (s : ClientState) (now : Int)
    (rr rd : List HttpResponse) :
    pyFormatChars t
        = (dateTimePart t ++ ['.']) ++ (millisDigits (t / 1000 % 1000) ++ ['Z']) ∧
    (pyFormatChars t).getLast? = some 'Z' ∧
    powerStartMicros t = t - 300 * 1000000 ∧
    powerUrl t = String.mk (("https://api.n2g-iona.net/v2/power/").data
      ++ pyQuote (pyFormatChars (t - 300 * 1000000))
      ++ ('/' :: pyQuote (pyFormatChars t)) ++ ['/']) ∧
    (get_current_power s now t rr rd).url = powerUrl t := by
  refine ⟨strftime_slice_millis t, ?_, rfl, rfl, ?_⟩
  · rw [strftime_slice_millis t,
      show (dateTimePart t ++ ['.']) ++ (millisDigits (t / 1000 % 1000) ++ ['Z'])
          = ((dateTimePart t ++ ['.']) ++ millisDigits (t / 1000 % 1000)) ++ ['Z'] from
        (List.append_assoc _ _ _).symm]
    exact List.getLast?_concat _
  · unfold get_current_power
    dsimp only
    repeat' split <;> try rfl

theorem ensureValidToken_valid (s : ClientState) (now : Int) (r : HttpResponse)
    (hTok : optStrFalsy s.access_token = false)
    (hExp : isTokenExpired s now = false) :
    ensureValidToken s now r = ⟨.ok (), s, 0, 0⟩ := by
  simp [ensureValidToken, hTok, hExp]

/-- C1 (amended): for each read operation, a first-response 401 runs
`_ensure_valid_token` again, which refreshes only when the local clock
says the token is absent or expired — with a locally valid token no
refresh attempt occurs and the retry reuses the same token; on
`[401, 200]` the request is retried exactly once and the final result
comes from the 200 payload (raw for initialisation/meter info, validated
and reshaped for power); on `[401, 401]` the operation fails with a
`ClientResponseError` carrying the second response's status and issues
no further requests. -/
theorem retry_once_reactive (s : ClientState) (now : Int) (nowUs : Nat)
    (rr : List HttpResponse) (r1 r2 okr : HttpResponse)
    (h1 : r1.status = 401) (h2 : r2.status = 401) (hok : okr.status = 200)
    (hTok : optStrFalsy s.access_token = false)
    (hExp : isTokenExpired s now = false) :
    ((get_initialisation_data s now rr [r1, okr]).result = .ok okr.body ∧
     (get_initialisation_data s now rr [r1, okr]).refreshCalls = 0 ∧
     (get_initialisation_data s now rr [r1, okr]).refreshPosts = 0 ∧
     (get_initialisation_data s now rr [r1, okr]).tokensUsed
        = [s.access_token, s.access_token]) ∧
    ((get_meter_info s now rr [r1, okr]).result = .ok okr.body ∧
     (get_meter_info s now rr [r1, okr]).refreshCalls = 0 ∧
     (get_meter_info s now rr [r1, okr]).tokensUsed
        = [s.access_token, s.access_token]) ∧
    ((get_current_power s now nowUs rr [r1, okr]).result = parsePowerData okr.body ∧
     (get_current_power s now nowUs rr [r1, okr]).refreshCalls = 0 ∧
     (get_current_power s now nowUs rr [r1, okr]).tokensUsed
        = [s.access_token, s.access_token]) ∧
    ((get_initialisation_data s now rr [r1, r2]).result
        = .error (.clientResponseError r2.status
            ("Failed to get initialisation data after token refresh: "
              ++ toString r2.status)) ∧
     (get_initialisation_data s now rr [r1, r2]).refreshCalls = 0 ∧
     (get_initialisation_data s now rr [r1, r2]).tokensUsed.length = 2) ∧
    ((get_meter_info s now rr [r1, r2]).result
        = .error (.clientResponseError r2.status
            ("Failed to get meter info after token refresh: "
              ++ toString r2.status)) ∧
     (get_meter_info s now rr [r1, r2]).tokensUsed.length = 2) ∧
    ((get_current_power s now nowUs rr [r1, r2]).result
        = .error (.clientResponseError r2.status
            ("Failed to get power data after token refresh: "
              ++ toString r2.status)) ∧
     (get_current_power s now nowUs rr [r1, r2]).tokensUsed.length = 2) := by
  have he : ∀ r, ensureValidToken s now r = ⟨.ok (), s, 0, 0⟩ :=
    fun r => ensureValidToken_valid s now r hTok hExp
  have hne1 : r1.status ≠ 200 := by rw [h1]; decide
  have hne2 : r2.status ≠ 200 := by rw [h2]; decide
  refine ⟨⟨?_, ?_, ?_, ?_⟩, ⟨?_, ?_, ?_⟩, ⟨?_, ?_, ?_⟩, ⟨?_, ?_, ?_⟩, ⟨?_, ?_⟩,
    ⟨?_, ?_⟩⟩ <;>
    simp [get_initialisation_data, get_meter_info, get_current_power, he,
      List.getD, h1, h2, hok, hne1, hne2]

/-- C1 counterexample: with a locally valid token and the response
sequence `[401, 200]` (a 200 refresh response standing ready),
`get_initialisation_data` performs zero refresh attempts — not exactly
one forced refresh — and retries with the unchanged token. -/
theorem retry_refresh_not_forced_cx :
    (get_initialisation_data cxState 0 [cxRefreshOk] [cx401, cx200]).refreshCalls = 0 ∧
    (get_initialisation_data cxState 0 [cxRefreshOk] [cx401, cx200]).refreshPosts = 0 ∧
    (get_initialisation_data cxState 0 [cxRefreshOk] [cx401, cx200]).result
      = .ok cxPayload ∧
    (get_initialisation_data cxState 0 [cxRefreshOk] [cx401, cx200]).tokensUsed
      = [some "tok", some "tok"] := by
  exact ⟨rfl, rfl, rfl, rfl⟩

/-- Witness for the amended C1 theorem at a concrete client and response
script. -/
theorem retry_once_reactive_witness :
    cx401.status = 401 ∧ cx200.status = 200 ∧
    optStrFalsy cxState.access_token = false ∧
    isTokenExpired cxState 0 = false ∧
    (get_initialisation_data cxState 0 [cxRefreshOk] [cx401, cx200]).result
      = .ok cxPayload := by
  exact ⟨rfl, rfl, rfl, by decide,
    (retry_once_reactive cxState 0 0 [cxRefreshOk] cx401 cx401 cx200
      rfl rfl rfl rfl (by decide)).1.1⟩

/-- C2: on a 200 power payload with `status == "ok"` and an EMPTY
`data.results` list, the parsing raises
`ValueError("Invalid response format")` — not the claimed
`"No power data available"`: the truthiness guard
`data.get("data", {}).get("results")` rejects an empty list before the
dedicated empty-results branch is ever reached, so that branch is dead
for every possible payload (third conjunct).  A payload with
`data.results` missing entirely raises `"Invalid response format"` as
claimed (second conjunct). -/
theorem power_empty_results_invalid_format :
    parsePowerData (.obj [("status", .str "ok"),
        ("data", .obj [("results", .arr [])])])
      = .error (.valueError "Invalid response format") ∧
    parsePowerData (.obj [("status", .str "ok"), ("data", .obj [])])
      = .error (.valueError "Invalid response format") ∧
    (∀ j : Json, resultIsNoPowerData (parsePowerData j) = false) := by
  refine ⟨rfl, rfl, fun j => ?_⟩
  unfold parsePowerData
  dsimp only
  by_cases h : (isStatusOk j
      && ((((j.getM "data").getD (.obj [])).getM "results").getD .null).truthy) = true
  · rw [if_pos h]
    rw [Bool.and_eq_true] at h
    have htr := h.2
    cases hr : ((((j.getM "data").getD (.obj [])).getM "results").getD .null) with
    | arr results =>
        rw [hr] at htr
        simp only [Json.truthy] at htr
        simp [resultIsNoPowerData, htr]
    | null => simp [resultIsNoPowerData]
    | bool b => simp [resultIsNoPowerData]
    | num n => simp [resultIsNoPowerData]
    | str s => simp [resultIsNoPowerData]
    | obj fields => simp [resultIsNoPowerData]
  · rw [if_neg h]
    simp [resultIsNoPowerData]

theorem parsePowerData_ok (payload d : Json) (results : List Json) (latest : Json)
    (hStatus : isStatusOk payload = true)
    (hData : payload.getM "data" = some d)
    (hResults : d.getM "results" = some (.arr results))
    (hLast : results.getLast? = some latest) :
    parsePowerData payload
      = .ok (.obj [("power", (latest.getM "power").getD (.num 0)),
                   ("timestamp", (latest.getM "timestamp").getD (.str "")),
                   ("unit", .str "W")]) := by
  have hne : results.isEmpty = false := by
    cases results with
    | nil => simp at hLast
    | cons a l => rfl
  simp [parsePowerData, hData, hResults, hStatus, Json.truthy, hne, hLast]

/-- C6: a `get_current_power` call whose 200 payload has top-level
status `"ok"` and a non-empty `data.results` list returns the LAST
element of `results` reshaped as `{power, timestamp, unit: "W"}` (with
Python `.get` defaults `0` / `""` for missing fields). -/
theorem get_current_power_returns_last (s : ClientState) (now : Int) (nowUs : Nat)
    (rr : List HttpResponse) (resp : HttpResponse) (d : Json)
    (results : List Json) (latest : Json)
    (hTok : optStrFalsy s.access_token = false)
    (hExp : isTokenExpired s now = false)
    (hst : resp.status = 200)
    (hStatus : isStatusOk resp.body = true)
    (hData : resp.body.getM "data" = some d)
    (hResults : d.getM "results" = some (.arr results))
    (hLast : results.getLast? = some latest) :
    (get_current_power s now nowUs rr [resp]).result
      = .ok (.obj [("power", (latest.getM "power").getD (.num 0)),
                   ("timestamp", (latest.getM "timestamp").getD (.str "")),
                   ("unit", .str "W")]) := by
  have he : ∀ r, ensureValidToken s now r = ⟨.ok (), s, 0, 0⟩ :=
    fun r => ensureValidToken_valid s now r hTok hExp
  simp [get_current_power, he, List.getD, hst,
    parsePowerData_ok resp.body d results latest hStatus hData hResults hLast]

/-- Witness for C6 at the spec's example input: results
`[{power:100, timestamp:"t1"}, {power:150, timestamp:"t2"}]` yield
`{power:150, timestamp:"t2", unit:"W"}`. -/
theorem get_current_power_returns_last_witness :
    optStrFalsy cxState.access_token = false ∧
    isTokenExpired cxState 0 = false ∧
    cxPower200.status = 200 ∧
    isStatusOk cxPowerPayload = true ∧
    (get_current_power cxState 0 0 [cxRefreshOk] [cxPower200]).result
      = .ok (.obj [("power", .num 150), ("timestamp", .str "t2"),
                   ("unit", .str "W")]) := by
  have h := get_current_power_returns_last cxState 0 0 [cxRefreshOk] cxPower200
    (.obj [("results", .arr
      [.obj [("power", .num 100), ("timestamp", .str "t1")],
       .obj [("power", .num 150), ("timestamp", .str "t2")]])])
    [.obj [("power", .num 100), ("timestamp", .str "t1")],
     .obj [("power", .num 150), ("timestamp", .str "t2")]]
    (.obj [("power", .num 150), ("timestamp", .str "t2")])
    rfl (by decide) rfl rfl rfl rfl rfl
  exact ⟨rfl, by decide, rfl, rfl, h⟩

/-- C4: after a successful refresh with a config entry set and a
well-typed token payload, the persisted record's three token fields
equal the client's new in-memory token fields, every non-token key of
the persisted record keeps its previous value, and the entry updater was
invoked. -/
theorem refresh_persists_tokens (s : ClientState) (now : Int) (resp : HttpResponse)
    (entry : String → Option Json) (a rt : String) (e : Int)
    (hce : s.config_entry = some entry)
    (hst : resp.status = 200)
    (hrt : optStrFalsy s.refresh_token = false)
    (ha : resp.body.getM "access_token" = some (.str a))
    (hr : resp.body.getM "refresh_token" = some (.str rt))
    (hei : resp.body.getM "expires_in" = some (.num e)) :
    (refresh_access_token s now resp).result = .ok resp.body ∧
    (refresh_access_token s now resp).state.access_token = some a ∧
    (refresh_access_token s now resp).state.refresh_token = some rt ∧
    (refresh_access_token s now resp).state.expires_in = some e ∧
    (refresh_access_token s now resp).state.config_entry
      = some (mergeTokens entry resp.body) ∧
    mergeTokens entry resp.body "access_token" = some (.str a) ∧
    mergeTokens entry resp.body "refresh_token" = some (.str rt) ∧
    mergeTokens entry resp.body "expires_in" = some (.num e) ∧
    (refresh_access_token s now resp).persistCalled = true ∧
    (∀ k, k ≠ "access_token" → k ≠ "refresh_token" → k ≠ "expires_in" →
      mergeTokens entry resp.body k = entry k) := by
  refine ⟨?_, ?_, ?_, ?_, ?_, ?_, ?_, ?_, ?_, ?_⟩
  case _ => simp [refresh_access_token, updateTokensInConfigEntry, hce, hst, hrt]
  case _ => simp [refresh_access_token, updateTokensInConfigEntry, hce, hst, hrt,
    jsonFieldStr, ha]
  case _ => simp [refresh_access_token, updateTokensInConfigEntry, hce, hst, hrt,
    jsonFieldStr, hr]
  case _ => simp [refresh_access_token, updateTokensInConfigEntry, hce, hst, hrt,
    jsonFieldInt, hei]
  case _ => simp [refresh_access_token, updateTokensInConfigEntry, hce, hst, hrt]
  case _ => simp [mergeTokens, ha]
  case _ => simp [mergeTokens, hr]
  case _ => simp [mergeTokens, hei]
  case _ => simp [refresh_access_token, updateTokensInConfigEntry, hce, hst, hrt]
  case _ =>
    intro k hk1 hk2 hk3
    simp [mergeTokens, hk1, hk2, hk3]

/-- Witness for C4: refreshing `cxStateWithEntry` with payload
`cxTokens` stores the new tokens in memory, keeps the persisted
`username` field, and persists. -/
theorem refresh_persists_tokens_witness :
    cxStateWithEntry.config_entry = some cxEntry ∧
    cxRefreshOk.status = 200 ∧
    optStrFalsy cxStateWithEntry.refresh_token = false ∧
    (refresh_access_token cxStateWithEntry 100 cxRefreshOk).state.access_token
      = some "newA" ∧
    (refresh_access_token cxStateWithEntry 100 cxRefreshOk).state.expires_in
      = some 600 ∧
    mergeTokens cxEntry cxRefreshOk.body "username" = some (.str "alice") ∧
    (refresh_access_token cxStateWithEntry 100 cxRefreshOk).persistCalled = true := by
  have h := refresh_persists_tokens cxStateWithEntry 100 cxRefreshOk cxEntry
    "newA" "newR" 600 rfl rfl rfl rfl rfl rfl
  exact ⟨rfl, rfl, rfl, h.2.1, h.2.2.2.1,
    (h.2.2.2.2.2.2.2.2.2 "username" (by decide) (by decide) (by decide)).trans rfl,
    h.2.2.2.2.2.2.2.2.1⟩

/-- C5: a refresh receiving a non-200 response fails with a
`ClientResponseError` carrying the status (the response body text is
captured for the diagnostic log before failing), and the client state —
in particular `access_token`, `refresh_token` and `expires_in` — is
exactly its pre-call value. -/
theorem refresh_failure_leaves_state (s : ClientState) (now : Int)
    (resp : HttpResponse)
    (hrt : optStrFalsy s.refresh_token = false)
    (hst : resp.status ≠ 200) :
    refresh_access_token s now resp =
      ⟨.error (.clientResponseError resp.status
          ("Token refresh failed: " ++ toString resp.status)),
        s, true, false, some resp.text⟩ := by
  simp [refresh_access_token, hrt, hst]

/-- Witness for C5 at a 503 refresh response. -/
theorem refresh_failure_leaves_state_witness :
    optStrFalsy cxState.refresh_token = false ∧
    cxRefreshFail.status ≠ 200 ∧
    refresh_access_token cxState 5 cxRefreshFail =
      ⟨.error (.clientResponseError 503 "Token refresh failed: 503"),
        cxState, true, false, some "service busy"⟩ := by
  exact ⟨rfl, by decide,
    refresh_failure_leaves_state cxState 5 cxRefreshFail rfl (by decide)⟩

/-- C8: `_ensure_valid_token` raises the no-token `ValueError` exactly on
a falsy access token and otherwise refreshes exactly when
`_is_token_expired()` holds, propagating the refresh outcome unchanged;
`refresh_access_token` raises the no-refresh-token `ValueError` on a
falsy refresh token and issues its POST exactly when the refresh token
is non-falsy — the precondition failure happens before any network
call. -/
theorem token_precondition_errors (s : ClientState) (now : Int)
    (resp : HttpResponse) :
    ensureValidToken s now resp =
      (if optStrFalsy s.access_token then
        ⟨.error (.valueError "No access token available"), s, 0, 0⟩
      else if isTokenExpired s now then
        ⟨(refresh_access_token s now resp).result.map (fun _ => ()),
          (refresh_access_token s now resp).state, 1,
          if (refresh_access_token s now resp).posted then 1 else 0⟩
      else ⟨.ok (), s, 0, 0⟩) ∧
    (refresh_access_token s now resp).posted = !optStrFalsy s.refresh_token ∧
    (optStrFalsy s.refresh_token = true →
      refresh_access_token s now resp =
        ⟨.error (.valueError "No refresh token available"), s, false, false,
          none⟩) := by
  refine ⟨rfl, ?_, ?_⟩
  · cases hb : optStrFalsy s.refresh_token with
    | true => simp [refresh_access_token, hb]
    | false =>
        by_cases hs : resp.status = 200 <;> simp [refresh_access_token, hb, hs]
  · intro h
    simp [refresh_access_token, h]

/-- Witness for C8: a client without a refresh token fails the refresh
precondition without posting. -/
theorem token_precondition_errors_witness :
    optStrFalsy (ClientState.mk (some "tok") none (some 10000) 0 0 none).refresh_token
      = true ∧
    refresh_access_token (ClientState.mk (some "tok") none (some 10000) 0 0 none)
        3 cxRefreshOk =
      ⟨.error (.valueError "No refresh token available"),
        ClientState.mk (some "tok") none (some 10000) 0 0 none, false, false,
        none⟩ := by
  exact ⟨rfl,
    (token_precondition_errors (ClientState.mk (some "tok") none (some 10000) 0 0 none)
      3 cxRefreshOk).2.2 rfl⟩

/-- C9: with no config entry set, a 200 refresh still returns the token
payload but leaves the entire client state unchanged and persists
nothing — the returned tokens silently diverge from the client's
state. -/
theorem refresh_no_config_entry (s : ClientState) (now : Int) (resp : HttpResponse)
    (hce : s.config_entry = none)
    (hrt : optStrFalsy s.refresh_token = false)
    (hst : resp.status = 200) :
    (refresh_access_token s now resp).result = .ok resp.body ∧
    (refresh_access_token s now resp).state = s ∧
    (refresh_access_token s now resp).persistCalled = false := by
  refine ⟨?_, ?_, ?_⟩ <;>
    simp [refresh_access_token, updateTokensInConfigEntry, hce, hrt, hst]

/-- Witness for C9: `cxState` has no config entry; a 200 refresh returns
the payload yet changes nothing. -/
theorem refresh_no_config_entry_witness :
    cxState.config_entry = none ∧
    optStrFalsy cxState.refresh_token = false ∧
    cxRefreshOk.status = 200 ∧
    (refresh_access_token cxState 7 cxRefreshOk).result = .ok cxTokens ∧
    (refresh_access_token cxState 7 cxRefreshOk).state = cxState ∧
    (refresh_access_token cxState 7 cxRefreshOk).persistCalled = false := by
  have h := refresh_no_config_entry cxState 7 cxRefreshOk rfl rfl rfl
  exact ⟨rfl, rfl, rfl, h.1, h.2.1, h.2.2⟩

/-- C10: a successful `authenticate` returns the payload and updates only
`token_created_at` and `last_token_refresh` (both to now); the token
fields are untouched, so callers must store the returned payload
themselves. -/
theorem authenticate_updates_only_timestamps (s : ClientState) (now : Int)
    (username password : String) (resp : HttpResponse)
    (hst : resp.status = 200) :
    authenticate s now username password resp =
      (.ok resp.body,
        { s with token_created_at := now, last_token_refresh := now }) ∧
    (authenticate s now username password resp).2.access_token = s.access_token ∧
    (authenticate s now username password resp).2.refresh_token = s.refresh_token ∧
    (authenticate s now username password resp).2.expires_in = s.expires_in ∧
    (authenticate s now username password resp).2.token_created_at = now ∧
    (authenticate s now username password resp).2.last_token_refresh = now := by
  refine ⟨?_, ?_, ?_, ?_, ?_, ?_⟩ <;> simp [authenticate, hst]

/-- Witness for C10 at a concrete login. -/
theorem authenticate_updates_only_timestamps_witness :
    cx200.status = 200 ∧
    (authenticate cxState 42 "user" "pw" cx200).2.access_token = some "tok" ∧
    (authenticate cxState 42 "user" "pw" cx200).2.token_created_at = 42 ∧
    (authenticate cxState 42 "user" "pw" cx200).1 = .ok cxPayload := by
  have h := authenticate_updates_only_timestamps cxState 42 "user" "pw" cx200 rfl
  exact ⟨rfl, h.2.1.trans rfl, h.2.2.2.2.1, (congrArg Prod.fst h.1).trans rfl⟩
